import Mathlib

/-!
Shallow embedding of `agglom_attention_flowws/GPTModel.py`.

The Python module assembles a Keras computation graph.  We embed graph
construction as explicit state passing over a `GraphState` that records,
in construction order, every layer object created and every symbolic
tensor (node) produced by applying a layer (or a backend `K.*` operation)
to earlier tensors.  Layers and nodes receive sequential numeric ids, so
Python object identity ("the same layer instance", "the identical
embedding-matrix object") becomes equality of ids.
-/

set_option autoImplicit false

namespace GPTSpec

/-- The kinds of layer objects the source constructs, together with the
constructor arguments recorded from the call sites in
`universal_transformer_gpt_model`.  A regularizer object
(`keras.regularizers.l2 p`) is represented by `some p`; absence of a
regularizer by `none`. -/
inductive LayerKind where
  | reusableEmbedding (vocab emb inputLen : Nat) (reg : Option ℚ)
  | tiedOutputEmbedding (reg : Option ℚ) (dropout : ℚ)
  | conv1D (filters width : Nat)
  | coordinateEmbedding (depth : Nat)
  | transformerBlock (numHeads : Nat) (residualDropout attentionDropout : ℚ)
      (useMasking vanillaWiring agglomerative : Bool)
  | transformerACT
  | softmaxLayer
  deriving DecidableEq, Repr

/-- A constructed layer object: id, Keras `name` argument, and kind. -/
structure Layer where
  id : Nat
  name : String
  kind : LayerKind
  deriving DecidableEq, Repr

/-- Symbolic tensors of the graph.  Each constructor names the layer id
applied and the ids of the input tensors.  `ReusableEmbedding` returns a
pair (embedded sequence, raw embedding matrix): its one call produces an
`embedSeq` node and an `embedMatrix` node.  `TransformerACT` also returns
a pair: the next-step representation (`actNext`) and the accumulated
pondered output (`actAccum`).  The `k*` constructors are the backend ops
used to build the confidence penalty. -/
inductive NodeOp where
  | input (shape : Nat)
  | embedSeq (layer inp : Nat)
  | embedMatrix (layer inp : Nat)
  | conv (layer inp : Nat)
  | coord (layer : Nat) (step : Nat) (inp : Nat)
  | block (layer inp : Nat)
  | actNext (layer inp : Nat)
  | actAccum (layer inp : Nat)
  | tiedOut (layer rep matrix : Nat)
  | softmax (layer inp : Nat)
  | kLog (a : Nat)
  | kMul (a b : Nat)
  | kSumLast (a : Nat)
  | kScaleMul (w : ℚ) (a : Nat)
  | kMean (a : Nat)
  deriving DecidableEq, Repr

/-- The mutable construction state: layers and nodes in creation order,
the next fresh ids, and the list of layer ids on which `finalize` has
been called. -/
structure GraphState where
  layers : List Layer
  nodes : List (Nat × NodeOp)
  nextLayer : Nat
  nextNode : Nat
  finalized : List Nat
  deriving DecidableEq, Repr

/-- Construct a layer object: returns its id and the updated state. -/
def addLayer (g : GraphState) (name : String) (k : LayerKind) : Nat × GraphState :=
  (g.nextLayer,
   { g with layers := g.layers ++ [⟨g.nextLayer, name, k⟩],
            nextLayer := g.nextLayer + 1 })

/-- Apply a layer / backend op, producing a fresh tensor node. -/
def addNode (g : GraphState) (op : NodeOp) : Nat × GraphState :=
  (g.nextNode,
   { g with nodes := g.nodes ++ [(g.nextNode, op)],
            nextNode := g.nextNode + 1 })

/-- Record `layer.finalize()`. -/
def finalizeACT (g : GraphState) (layer : Nat) : GraphState :=
  { g with finalized := g.finalized ++ [layer] }

/-- The keyword parameters of `universal_transformer_gpt_model`.  The
Python defaults are `transformer_dropout=0.1`, `embedding_dropout=0.6`,
`l2_reg_penalty=1e-6`, `confidence_penalty_weight=0.1`,
`agglomerative_attention=False`, `use_convolutions=False`,
`use_coordinate_embeddings=True`, `convolution_width=0`,
`penalize_confidence=False`.  `l2_reg_penalty` is a Python float or
`None`, hence `Option ℚ`. -/
structure Cfg where
  max_seq_length : Nat
  vocabulary_size : Nat
  word_embedding_size : Nat
  transformer_depth : Nat
  num_heads : Nat
  transformer_dropout : ℚ
  embedding_dropout : ℚ
  l2_reg_penalty : Option ℚ
  confidence_penalty_weight : ℚ
  agglomerative_attention : Bool
  use_convolutions : Bool
  use_coordinate_embeddings : Bool
  convolution_width : Nat
  penalize_confidence : Bool
  deriving DecidableEq, Repr

/-- Python truthiness of the `l2_reg_penalty` argument: `None` and `0`
are falsy, every other number is truthy. -/
def pyTruthy : Option ℚ → Bool
  | none => false
  | some q => decide (q ≠ 0)

/-- `keras.regularizers.l2(l2_reg_penalty) if l2_reg_penalty else None`. -/
def l2_of (p : Option ℚ) : Option ℚ :=
  if pyTruthy p then p else none

/-- The seven local variables holding the layer ids constructed before
the depth loop. -/
structure LayerIds where
  embedding_layer : Nat
  output_layer : Nat
  conv_layer : Nat
  coordinate_embedding_layer : Nat
  transformer_block : Nat
  transformer_act_layer : Nat
  output_softmax_layer : Nat
  deriving DecidableEq, Repr

/-- One iteration of the depth loop (the body of
`for i in range(transformer_depth)`): optionally apply the convolution,
optionally apply the coordinate embedding at step `i`, apply the
transformer block, then the ACT layer, whose call returns the pair
(next-step representation, accumulated pondered output). -/
def loopBody (cfg : Cfg) (L : LayerIds) (i : Nat)
    (next_step_input act_output : Nat) (g : GraphState) :
    Nat × Nat × GraphState :=
  let (n1, g) :=
    if cfg.use_convolutions then
      addNode g (NodeOp.conv L.conv_layer next_step_input)
    else (next_step_input, g)
  let (n2, g) :=
    if cfg.use_coordinate_embeddings then
      addNode g (NodeOp.coord L.coordinate_embedding_layer i n1)
    else (n1, g)
  let (n3, g) := addNode g (NodeOp.block L.transformer_block n2)
  let (n4, g) := addNode g (NodeOp.actNext L.transformer_act_layer n3)
  let (n5, g) := addNode g (NodeOp.actAccum L.transformer_act_layer n3)
  (n4, n5, g)

/-- The depth loop: run `loopBody` for indices `i, i+1, ...`, `n` times,
threading `(next_step_input, act_output)` and the graph state. -/
def depthLoop (cfg : Cfg) (L : LayerIds) :
    Nat → Nat → Nat → Nat → GraphState → Nat × Nat × GraphState
  | 0, _, next_step_input, act_output, g => (next_step_input, act_output, g)
  | n + 1, i, next_step_input, act_output, g =>
    let (n1, a1, g1) := loopBody cfg L i next_step_input act_output g
    depthLoop cfg L n (i + 1) n1 a1 g1

/-- The returned Keras model object: its input tensors, output tensors,
and the extra loss tensors attached with `model.add_loss`. -/
structure Model where
  inputs : List Nat
  outputs : List Nat
  addedLosses : List Nat
  deriving DecidableEq, Repr

/-- Embedding of `universal_transformer_gpt_model`, statement by
statement in source order.  Returns the model together with the final
graph state (Keras keeps the graph inside the model object; we expose it
as the second component). -/
def universal_transformer_gpt_model (cfg : Cfg) : Model × GraphState :=
  let g : GraphState := ⟨[], [], 0, 0, []⟩
  let (word_ids, g) := addNode g (NodeOp.input cfg.max_seq_length)
  let l2_regularizer := l2_of cfg.l2_reg_penalty
  let (embedding_layer, g) := addLayer g "bpe_embeddings"
    (LayerKind.reusableEmbedding cfg.vocabulary_size cfg.word_embedding_size
      cfg.max_seq_length l2_regularizer)
  let (output_layer, g) := addLayer g "word_prediction_logits"
    (LayerKind.tiedOutputEmbedding l2_regularizer cfg.embedding_dropout)
  let (conv_layer, g) := addLayer g "convolution"
    (LayerKind.conv1D cfg.word_embedding_size cfg.convolution_width)
  let (coordinate_embedding_layer, g) := addLayer g "coordinate_embedding"
    (LayerKind.coordinateEmbedding cfg.transformer_depth)
  let (transformer_block, g) := addLayer g "transformer"
    (LayerKind.transformerBlock cfg.num_heads cfg.transformer_dropout
      cfg.transformer_dropout true false cfg.agglomerative_attention)
  let (transformer_act_layer, g) := addLayer g "adaptive_computation_time"
    LayerKind.transformerACT
  let (output_softmax_layer, g) := addLayer g "word_predictions"
    LayerKind.softmaxLayer
  let L : LayerIds := ⟨embedding_layer, output_layer, conv_layer,
    coordinate_embedding_layer, transformer_block, transformer_act_layer,
    output_softmax_layer⟩
  let (next_step_input, g) := addNode g (NodeOp.embedSeq embedding_layer word_ids)
  let (embedding_matrix, g) := addNode g (NodeOp.embedMatrix embedding_layer word_ids)
  let act_output := next_step_input
  let (next_step_input, act_output, g) :=
    depthLoop cfg L cfg.transformer_depth 0 next_step_input act_output g
  let g := finalizeACT g transformer_act_layer
  let next_step_input := act_output
  let (logits, g) := addNode g (NodeOp.tiedOut output_layer next_step_input embedding_matrix)
  let (word_predictions, g) := addNode g (NodeOp.softmax output_softmax_layer logits)
  let model : Model := ⟨[word_ids], [word_predictions], []⟩
  let (lg, g) := addNode g (NodeOp.kLog word_predictions)
  let (pm, g) := addNode g (NodeOp.kMul word_predictions lg)
  let (sm, g) := addNode g (NodeOp.kSumLast pm)
  let (sc, g) := addNode g (NodeOp.kScaleMul cfg.confidence_penalty_weight sm)
  let (confidence_penalty, g) := addNode g (NodeOp.kMean sc)
  let model :=
    if cfg.penalize_confidence then
      { model with addedLosses := model.addedLosses ++ [confidence_penalty] }
    else model
  (model, g)

/-- The model component of the result. -/
def modelOf (cfg : Cfg) : Model := (universal_transformer_gpt_model cfg).1

/-- The graph component of the result. -/
def graphOf (cfg : Cfg) : GraphState := (universal_transformer_gpt_model cfg).2

/-- Values stored in the flowws scope (a mutable string-keyed dict):
integers, constructed models, and arbitrary other values (tagged). -/
inductive ScopeVal where
  | nat (n : Nat)
  | modelVal (m : Model) (g : GraphState)
  | other (tag : Nat)
  deriving DecidableEq, Repr

/-- The shared pipeline scope. -/
def Scope := String → Option ScopeVal

/-- The stage arguments of the `GPTModel` flowws stage, with defaults
`width=64, depth=6, use_convolutions=False, use_agglomeration=False,
convolution_width=8, num_heads=8, print_summary=False`. -/
structure Arguments where
  width : Nat
  depth : Nat
  use_convolutions : Bool
  use_agglomeration : Bool
  convolution_width : Nat
  num_heads : Nat
  print_summary : Bool
  deriving DecidableEq, Repr

/-- The `Cfg` that `GPTModel.run` passes to
`universal_transformer_gpt_model`: positional arguments from the scope
and the stage arguments, `use_coordinate_embeddings` the negation of
`use_convolutions`, and Python defaults for everything not passed. -/
def cfgFromArgs (args : Arguments) (vocabulary_size sequence_length : Nat) : Cfg :=
  { max_seq_length := sequence_length
    vocabulary_size := vocabulary_size
    word_embedding_size := args.width
    transformer_depth := args.depth
    num_heads := args.num_heads
    transformer_dropout := 1 / 10
    embedding_dropout := 6 / 10
    l2_reg_penalty := some (1 / 1000000)
    confidence_penalty_weight := 1 / 10
    agglomerative_attention := args.use_agglomeration
    use_convolutions := args.use_convolutions
    use_coordinate_embeddings := !args.use_convolutions
    convolution_width := args.convolution_width
    penalize_confidence := false }

/-- Embedding of `GPTModel.run`: read `vocabulary_size` and
`sequence_length` from the scope (a missing key or a non-integer value is
a Python `KeyError`/type error, modelled as `none`), build the model, and
write it back under the key `model`, leaving every other key unchanged.
`maybe_setup_tensorflow` and `model.summary()` only touch the backend
session and stdout, not the scope or the model. -/
def GPTModel_run (args : Arguments) (scope : Scope) : Option Scope :=
  match scope "vocabulary_size", scope "sequence_length" with
  | some (ScopeVal.nat vocabulary_size), some (ScopeVal.nat sequence_length) =>
    let (model, g) :=
      universal_transformer_gpt_model (cfgFromArgs args vocabulary_size sequence_length)
    some (fun k => if k = "model" then some (ScopeVal.modelVal model g) else scope k)
  | _, _ => none

/-! Closed forms for the graph produced by the builder.  Node ids are
sequential, so each loop iteration occupies a contiguous block of ids
whose size depends only on the two feature toggles. -/

/-- Number of nodes an iteration adds for the convolution (0 or 1). -/
def cNum (cfg : Cfg) : Nat := if cfg.use_convolutions then 1 else 0

/-- Number of nodes an iteration adds for the coordinate embedding. -/
def dNum (cfg : Cfg) : Nat := if cfg.use_coordinate_embeddings then 1 else 0

/-- Total nodes added per loop iteration: optional conv, optional
coordinate embedding, block, actNext, actAccum. -/
def stepK (cfg : Cfg) : Nat := cNum cfg + dNum cfg + 3

/-- Representation id after the optional convolution, when the iteration
starts at fresh id `B` with incoming representation `r`. -/
def convOutId (cfg : Cfg) (B r : Nat) : Nat :=
  if cfg.use_convolutions then B else r

/-- Representation id after the optional coordinate embedding. -/
def coordOutId (cfg : Cfg) (B r : Nat) : Nat :=
  if cfg.use_coordinate_embeddings then B + cNum cfg else convOutId cfg B r

/-- The nodes one loop iteration appends, when it starts at fresh id `B`
with step index `i` and incoming representation `r`. -/
def iterNodes (cfg : Cfg) (L : LayerIds) (B i r : Nat) : List (Nat × NodeOp) :=
  (if cfg.use_convolutions then [(B, NodeOp.conv L.conv_layer r)] else []) ++
  (if cfg.use_coordinate_embeddings then
      [(B + cNum cfg, NodeOp.coord L.coordinate_embedding_layer i (convOutId cfg B r))]
    else []) ++
  [(B + cNum cfg + dNum cfg,
      NodeOp.block L.transformer_block (coordOutId cfg B r)),
   (B + cNum cfg + dNum cfg + 1,
      NodeOp.actNext L.transformer_act_layer (B + cNum cfg + dNum cfg)),
   (B + cNum cfg + dNum cfg + 2,
      NodeOp.actAccum L.transformer_act_layer (B + cNum cfg + dNum cfg))]

/-- The nodes `n` loop iterations append, starting at step index `i`,
fresh id `B`, incoming representation `r`. -/
def loopTrace (cfg : Cfg) (L : LayerIds) : Nat → Nat → Nat → Nat → List (Nat × NodeOp)
  | 0, _, _, _ => []
  | n + 1, i, B, r =>
    iterNodes cfg L B i r ++
      loopTrace cfg L n (i + 1) (B + stepK cfg) (B + cNum cfg + dNum cfg + 1)

/-- The `next_step_input` value after `n` iterations starting at fresh
id `B` with incoming representation `r`. -/
def loopRep (cfg : Cfg) (n B r : Nat) : Nat :=
  match n with
  | 0 => r
  | m + 1 => B + m * stepK cfg + cNum cfg + dNum cfg + 1

/-- The `act_output` value after `n` iterations. -/
def loopAcc (cfg : Cfg) (n B a : Nat) : Nat :=
  match n with
  | 0 => a
  | m + 1 => B + m * stepK cfg + cNum cfg + dNum cfg + 2

/-- The layer ids as allocated by `universal_transformer_gpt_model`:
embedding 0, tied output 1, convolution 2, coordinate embedding 3,
transformer block 4, ACT 5, softmax 6. -/
def theLayerIds : LayerIds := ⟨0, 1, 2, 3, 4, 5, 6⟩

/-- The seven layer objects the assembly function always constructs, in
construction order. -/
def layersOf (cfg : Cfg) : List Layer :=
  [⟨0, "bpe_embeddings",
     LayerKind.reusableEmbedding cfg.vocabulary_size cfg.word_embedding_size
       cfg.max_seq_length (l2_of cfg.l2_reg_penalty)⟩,
   ⟨1, "word_prediction_logits",
     LayerKind.tiedOutputEmbedding (l2_of cfg.l2_reg_penalty) cfg.embedding_dropout⟩,
   ⟨2, "convolution", LayerKind.conv1D cfg.word_embedding_size cfg.convolution_width⟩,
   ⟨3, "coordinate_embedding", LayerKind.coordinateEmbedding cfg.transformer_depth⟩,
   ⟨4, "transformer",
     LayerKind.transformerBlock cfg.num_heads cfg.transformer_dropout
       cfg.transformer_dropout true false cfg.agglomerative_attention⟩,
   ⟨5, "adaptive_computation_time", LayerKind.transformerACT⟩,
   ⟨6, "word_predictions", LayerKind.softmaxLayer⟩]

/-- Node id of the tied output-projection application. -/
def tiedId (cfg : Cfg) : Nat := 3 + cfg.transformer_depth * stepK cfg

/-- Node id of the representation fed into the output projection: the
`act_output` variable after the loop (initially the embedded input,
node 1). -/
def accIdOf (cfg : Cfg) : Nat := loopAcc cfg cfg.transformer_depth 3 1

/-- The fresh id at which the last loop iteration starts. -/
def lastIterBase (cfg : Cfg) : Nat :=
  3 + (cfg.transformer_depth - 1) * stepK cfg

/-- Node id of the last iteration's transformer-block application. -/
def lastBlockId (cfg : Cfg) : Nat :=
  lastIterBase cfg + cNum cfg + dNum cfg

/-- The representation entering loop iteration `j`: the embedded input
for `j = 0`, the previous iteration's `actNext` node afterwards. -/
def repIn (cfg : Cfg) : Nat → Nat
  | 0 => 1
  | j + 1 => 3 + j * stepK cfg + cNum cfg + dNum cfg + 1

/-- The representation entering iteration `j` of a loop run that starts
at fresh id `B` with incoming representation `r`. -/
def relRep (cfg : Cfg) (B r : Nat) : Nat → Nat
  | 0 => r
  | j + 1 => B + j * stepK cfg + cNum cfg + dNum cfg + 1

/-- The three nodes created before the depth loop. -/
def prefixNodes (cfg : Cfg) : List (Nat × NodeOp) :=
  [(0, NodeOp.input cfg.max_seq_length),
   (1, NodeOp.embedSeq 0 0),
   (2, NodeOp.embedMatrix 0 0)]

/-- The nodes created after the depth loop: the tied output projection,
the softmax, and the backend ops of the confidence penalty. -/
def suffixNodes (cfg : Cfg) : List (Nat × NodeOp) :=
  [(tiedId cfg, NodeOp.tiedOut 1 (accIdOf cfg) 2),
   (tiedId cfg + 1, NodeOp.softmax 6 (tiedId cfg)),
   (tiedId cfg + 2, NodeOp.kLog (tiedId cfg + 1)),
   (tiedId cfg + 3, NodeOp.kMul (tiedId cfg + 1) (tiedId cfg + 2)),
   (tiedId cfg + 4, NodeOp.kSumLast (tiedId cfg + 3)),
   (tiedId cfg + 5, NodeOp.kScaleMul cfg.confidence_penalty_weight (tiedId cfg + 4)),
   (tiedId cfg + 6, NodeOp.kMean (tiedId cfg + 5))]

/-! Decidable predicates on nodes and layers, used to state the claims. -/

/-- Is the node a transformer-block application? -/
def isBlockApp : Nat × NodeOp → Bool
  | (_, NodeOp.block _ _) => true
  | _ => false

/-- Is the node a coordinate-embedding application? -/
def isCoordApp : Nat × NodeOp → Bool
  | (_, NodeOp.coord _ _ _) => true
  | _ => false

/-- Is the node a convolution application? -/
def isConvApp : Nat × NodeOp → Bool
  | (_, NodeOp.conv _ _) => true
  | _ => false

/-- Is the node an ACT application (either returned tensor)? -/
def isActApp : Nat × NodeOp → Bool
  | (_, NodeOp.actNext _ _) => true
  | (_, NodeOp.actAccum _ _) => true
  | _ => false

/-- Is the node the embedding-matrix output of a `ReusableEmbedding`? -/
def isEmbedMatrixApp : Nat × NodeOp → Bool
  | (_, NodeOp.embedMatrix _ _) => true
  | _ => false

/-- Is the node a `TiedOutputEmbedding` application? -/
def isTiedOutApp : Nat × NodeOp → Bool
  | (_, NodeOp.tiedOut _ _ _) => true
  | _ => false

/-- Does this block-application node use layer id `t`?  (`true` also for
non-block nodes, so that `List.all` over a block filter checks blocks.) -/
def blockUsesLayer (t : Nat) : Nat × NodeOp → Bool
  | (_, NodeOp.block l _) => l == t
  | _ => true

/-- Number of transformer-block applications in the graph. -/
def blockApps (g : GraphState) : Nat := g.nodes.countP isBlockApp

/-- Number of coordinate-embedding applications in the graph. -/
def coordApps (g : GraphState) : Nat := g.nodes.countP isCoordApp

/-- Number of convolution applications in the graph. -/
def convApps (g : GraphState) : Nat := g.nodes.countP isConvApp

/-- Number of ACT applications in the graph. -/
def actApps (g : GraphState) : Nat := g.nodes.countP isActApp

/-- Is the layer a `TransformerBlock` instance? -/
def isBlockLayer (l : Layer) : Bool :=
  match l.kind with
  | LayerKind.transformerBlock _ _ _ _ _ _ => true
  | _ => false

/-- Is the layer a `Conv1D` instance? -/
def isConvLayer (l : Layer) : Bool :=
  match l.kind with
  | LayerKind.conv1D _ _ => true
  | _ => false

/-- Is the layer a `TransformerCoordinateEmbedding` instance? -/
def isCoordLayer (l : Layer) : Bool :=
  match l.kind with
  | LayerKind.coordinateEmbedding _ => true
  | _ => false

/-- The regularizer slot of a layer kind, when the kind has one: the
embedding layer's `embeddings_regularizer` and the tied output layer's
`projection_regularizer`.  No other layer constructed here takes a
regularizer. -/
def regSlotOf : LayerKind → Option (Option ℚ)
  | LayerKind.reusableEmbedding _ _ _ reg => some reg
  | LayerKind.tiedOutputEmbedding reg _ => some reg
  | _ => none

/-- All regularizer slots present in the graph's layers, in layer order. -/
def regSlotsOf (g : GraphState) : List (Option ℚ) :=
  g.layers.filterMap (fun l => regSlotOf l.kind)

/-- A small concrete configuration used to evaluate the development on
explicit inputs. -/
def sampleCfg (conv coord : Bool) (depth : Nat) (l2 : Option ℚ) : Cfg :=
  { max_seq_length := 4
    vocabulary_size := 10
    word_embedding_size := 8
    transformer_depth := depth
    num_heads := 2
    transformer_dropout := 0
    embedding_dropout := 0
    l2_reg_penalty := l2
    confidence_penalty_weight := 1
    agglomerative_attention := false
    use_convolutions := conv
    use_coordinate_embeddings := coord
    convolution_width := 4
    penalize_confidence := false }

/-- Sample configuration: both feature toggles on, depth 2. -/
def cfgC3 : Cfg := sampleCfg true true 2 none

/-- Sample configuration: both feature toggles off, depth 1. -/
def cfgC7 : Cfg := sampleCfg false false 1 none

/-- Sample configuration: a nonzero L2 penalty. -/
def cfgC8 : Cfg := sampleCfg false true 1 (some 5)

/-- Sample configuration: depth 0. -/
def cfgC10 : Cfg := sampleCfg false true 0 none

/-- Sample stage arguments with `use_convolutions` enabled. -/
def argsConv : Arguments := ⟨8, 2, true, false, 4, 2, false⟩

/-- Sample stage arguments with `use_convolutions` disabled. -/
def argsPlain : Arguments := ⟨8, 2, false, false, 4, 2, false⟩

/-- A sample scope holding the two consumed keys plus an unrelated one. -/
def testScope : Scope := fun k =>
  if k = "vocabulary_size" then some (ScopeVal.nat 10)
  else if k = "sequence_length" then some (ScopeVal.nat 8)
  else if k = "num_epochs" then some (ScopeVal.other 7)
  else none

/-- One loop iteration appends exactly `iterNodes` and returns the
`actNext` and `actAccum` ids. -/
theorem loopBody_spec (cfg : Cfg) (L : LayerIds) (i r a : Nat) (g : GraphState) :
    loopBody cfg L i r a g =
      (g.nextNode + cNum cfg + dNum cfg + 1,
       g.nextNode + cNum cfg + dNum cfg + 2,
       { g with nodes := g.nodes ++ iterNodes cfg L g.nextNode i r,
                nextNode := g.nextNode + stepK cfg }) := by
  rcases g with ⟨ls, ns, nl, nn, fs⟩
  rcases hc : cfg.use_convolutions <;> rcases hd : cfg.use_coordinate_embeddings <;>
    simp [loopBody, addNode, iterNodes, cNum, dNum, stepK, convOutId, coordOutId,
      hc, hd, List.append_assoc] <;> omega

/-- Unfolding of the depth loop: it appends `loopTrace` and returns the
closed-form representation and accumulator ids. -/
theorem depthLoop_eq (cfg : Cfg) (L : LayerIds) :
    ∀ (n i r a : Nat) (g : GraphState),
      depthLoop cfg L n i r a g =
        (loopRep cfg n g.nextNode r, loopAcc cfg n g.nextNode a,
         { g with nodes := g.nodes ++ loopTrace cfg L n i g.nextNode r,
                  nextNode := g.nextNode + n * stepK cfg }) := by
  intro n
  induction n with
  | zero =>
    intro i r a g
    simp [depthLoop, loopRep, loopAcc, loopTrace]
  | succ m ih =>
    intro i r a g
    rw [depthLoop, loopBody_spec]
    dsimp only
    rw [ih]
    simp only [loopTrace, loopRep, loopAcc]
    rcases m with _ | m' <;>
      simp [loopTrace, List.append_assoc, Nat.mul_succ, Nat.succ_mul, stepK] <;>
      omega

/-- Closed form of the assembly function: the seven layers, the prefix
nodes, the loop trace, the suffix nodes, and the model record. -/
theorem model_graph_eq (cfg : Cfg) :
    universal_transformer_gpt_model cfg =
      ({ inputs := [0], outputs := [tiedId cfg + 1],
         addedLosses := if cfg.penalize_confidence then [tiedId cfg + 6] else [] },
       { layers := layersOf cfg,
         nodes := prefixNodes cfg ++
           loopTrace cfg theLayerIds cfg.transformer_depth 0 3 1 ++ suffixNodes cfg,
         nextLayer := 7, nextNode := tiedId cfg + 7, finalized := [5] }) := by
  simp only [universal_transformer_gpt_model, addNode, addLayer, finalizeACT]
  rw [depthLoop_eq]
  dsimp only
  simp [prefixNodes, suffixNodes, layersOf, theLayerIds, tiedId, accIdOf,
    List.append_assoc]
  rcases hp : cfg.penalize_confidence <;> simp [hp] <;> omega

/-- Each iteration applies the transformer block exactly once. -/
theorem iterNodes_block_count (cfg : Cfg) (L : LayerIds) (B i r : Nat) :
    (iterNodes cfg L B i r).countP isBlockApp = 1 := by
  rcases hc : cfg.use_convolutions <;> rcases hd : cfg.use_coordinate_embeddings <;>
    simp [iterNodes, hc, hd, isBlockApp]

/-- Each iteration applies the coordinate embedding `dNum` times. -/
theorem iterNodes_coord_count (cfg : Cfg) (L : LayerIds) (B i r : Nat) :
    (iterNodes cfg L B i r).countP isCoordApp = dNum cfg := by
  rcases hc : cfg.use_convolutions <;> rcases hd : cfg.use_coordinate_embeddings <;>
    simp [iterNodes, hc, hd, isCoordApp, dNum]

/-- Each iteration applies the convolution `cNum` times. -/
theorem iterNodes_conv_count (cfg : Cfg) (L : LayerIds) (B i r : Nat) :
    (iterNodes cfg L B i r).countP isConvApp = cNum cfg := by
  rcases hc : cfg.use_convolutions <;> rcases hd : cfg.use_coordinate_embeddings <;>
    simp [iterNodes, hc, hd, isConvApp, cNum]

/-- Each iteration applies the ACT layer once, producing two tensors. -/
theorem iterNodes_act_count (cfg : Cfg) (L : LayerIds) (B i r : Nat) :
    (iterNodes cfg L B i r).countP isActApp = 2 := by
  rcases hc : cfg.use_convolutions <;> rcases hd : cfg.use_coordinate_embeddings <;>
    simp [iterNodes, hc, hd, isActApp]

/-- No loop iteration produces an embedding-matrix node. -/
theorem iterNodes_embedMatrix_count (cfg : Cfg) (L : LayerIds) (B i r : Nat) :
    (iterNodes cfg L B i r).countP isEmbedMatrixApp = 0 := by
  rcases hc : cfg.use_convolutions <;> rcases hd : cfg.use_coordinate_embeddings <;>
    simp [iterNodes, hc, hd, isEmbedMatrixApp]

/-- No loop iteration produces a tied-output node. -/
theorem iterNodes_tiedOut_count (cfg : Cfg) (L : LayerIds) (B i r : Nat) :
    (iterNodes cfg L B i r).countP isTiedOutApp = 0 := by
  rcases hc : cfg.use_convolutions <;> rcases hd : cfg.use_coordinate_embeddings <;>
    simp [iterNodes, hc, hd, isTiedOutApp]

/-- Every block node of an iteration references the block layer id. -/
theorem iterNodes_block_layer (cfg : Cfg) (L : LayerIds) (B i r : Nat) :
    (iterNodes cfg L B i r).all (blockUsesLayer L.transformer_block) = true := by
  rcases hc : cfg.use_convolutions <;> rcases hd : cfg.use_coordinate_embeddings <;>
    simp [iterNodes, hc, hd, blockUsesLayer]

/-- `n` iterations apply the transformer block exactly `n` times. -/
theorem loopTrace_block_count (cfg : Cfg) (L : LayerIds) :
    ∀ n i B r, (loopTrace cfg L n i B r).countP isBlockApp = n := by
  intro n
  induction n with
  | zero => intro i B r; simp [loopTrace]
  | succ m ih =>
    intro i B r
    simp [loopTrace, List.countP_append, iterNodes_block_count, ih, Nat.add_comm]

/-- `n` iterations apply the coordinate embedding `dNum * n` times. -/
theorem loopTrace_coord_count (cfg : Cfg) (L : LayerIds) :
    ∀ n i B r, (loopTrace cfg L n i B r).countP isCoordApp = dNum cfg * n := by
  intro n
  induction n with
  | zero => intro i B r; simp [loopTrace]
  | succ m ih =>
    intro i B r
    simp only [loopTrace, List.countP_append, iterNodes_coord_count, ih, Nat.mul_succ]
    omega

/-- `n` iterations apply the convolution `cNum * n` times. -/
theorem loopTrace_conv_count (cfg : Cfg) (L : LayerIds) :
    ∀ n i B r, (loopTrace cfg L n i B r).countP isConvApp = cNum cfg * n := by
  intro n
  induction n with
  | zero => intro i B r; simp [loopTrace]
  | succ m ih =>
    intro i B r
    simp only [loopTrace, List.countP_append, iterNodes_conv_count, ih, Nat.mul_succ]
    omega

/-- `n` iterations produce `2 * n` ACT tensors. -/
theorem loopTrace_act_count (cfg : Cfg) (L : LayerIds) :
    ∀ n i B r, (loopTrace cfg L n i B r).countP isActApp = 2 * n := by
  intro n
  induction n with
  | zero => intro i B r; simp [loopTrace]
  | succ m ih =>
    intro i B r
    simp only [loopTrace, List.countP_append, iterNodes_act_count, ih, Nat.mul_succ]
    omega

/-- The loop produces no embedding-matrix node. -/
theorem loopTrace_embedMatrix_count (cfg : Cfg) (L : LayerIds) :
    ∀ n i B r, (loopTrace cfg L n i B r).countP isEmbedMatrixApp = 0 := by
  intro n
  induction n with
  | zero => intro i B r; simp [loopTrace]
  | succ m ih =>
    intro i B r
    simp [loopTrace, List.countP_append, iterNodes_embedMatrix_count, ih]

/-- The loop produces no tied-output node. -/
theorem loopTrace_tiedOut_count (cfg : Cfg) (L : LayerIds) :
    ∀ n i B r, (loopTrace cfg L n i B r).countP isTiedOutApp = 0 := by
  intro n
  induction n with
  | zero => intro i B r; simp [loopTrace]
  | succ m ih =>
    intro i B r
    simp [loopTrace, List.countP_append, iterNodes_tiedOut_count, ih]

/-- Every block node of the loop references the block layer id. -/
theorem loopTrace_block_layer (cfg : Cfg) (L : LayerIds) :
    ∀ n i B r, (loopTrace cfg L n i B r).all (blockUsesLayer L.transformer_block) = true := by
  intro n
  induction n with
  | zero => intro i B r; simp [loopTrace]
  | succ m ih =>
    intro i B r
    simp [loopTrace, List.all_append, iterNodes_block_layer, ih]

/-- Peeling one iteration shifts the entering-representation function. -/
theorem relRep_shift (cfg : Cfg) (B r j : Nat) :
    relRep cfg B r (j + 1) =
      relRep cfg (B + stepK cfg) (B + cNum cfg + dNum cfg + 1) j := by
  rcases j with _ | j' <;> simp [relRep, stepK, Nat.succ_mul] <;> omega

/-- At the actual loop start (fresh id 3, representation 1) the
entering representation is `repIn`. -/
theorem relRep_base (cfg : Cfg) (j : Nat) : relRep cfg 3 1 j = repIn cfg j := by
  rcases j with _ | j' <;> rfl

/-- The nodes of iteration `j` are all in the loop trace. -/
theorem loopTrace_iter_sub (cfg : Cfg) (L : LayerIds) :
    ∀ n j i B r, j < n →
      ∀ x, x ∈ iterNodes cfg L (B + j * stepK cfg) (i + j) (relRep cfg B r j) →
        x ∈ loopTrace cfg L n i B r := by
  intro n
  induction n with
  | zero => intro j i B r hj; omega
  | succ m ih =>
    intro j i B r hj x hx
    rw [loopTrace, List.mem_append]
    rcases j with _ | j'
    · left
      simpa [relRep] using hx
    · right
      have e1 : B + (j' + 1) * stepK cfg = B + stepK cfg + j' * stepK cfg := by
        rw [Nat.succ_mul]; omega
      have e2 : i + (j' + 1) = i + 1 + j' := by omega
      rw [e1, e2, relRep_shift] at hx
      exact ih j' (i + 1) (B + stepK cfg) (B + cNum cfg + dNum cfg + 1)
        (by omega) x hx

/-- The node ids of one iteration are the `stepK` consecutive ids
starting at its base. -/
theorem iterNodes_keys (cfg : Cfg) (L : LayerIds) (B i r : Nat) :
    (iterNodes cfg L B i r).map Prod.fst = List.range' B (stepK cfg) := by
  rcases hc : cfg.use_convolutions <;> rcases hd : cfg.use_coordinate_embeddings <;>
    simp [iterNodes, stepK, cNum, dNum, hc, hd, List.range'_succ]

/-- The node ids of the loop trace are the `n * stepK` consecutive ids
starting at `B`. -/
theorem loopTrace_keys (cfg : Cfg) (L : LayerIds) :
    ∀ n i B r, (loopTrace cfg L n i B r).map Prod.fst =
      List.range' B (n * stepK cfg) := by
  intro n
  induction n with
  | zero => intro i B r; simp [loopTrace]
  | succ m ih =>
    intro n B r
    rw [loopTrace, List.map_append, iterNodes_keys, ih]
    have h := List.range'_append B (stepK cfg) (m * stepK cfg) 1
    simp only [one_mul] at h
    rw [h]
    congr 1
    ring

/-- Closed form of the graph component. -/
theorem graphOf_eq (cfg : Cfg) :
    graphOf cfg =
      { layers := layersOf cfg,
        nodes := prefixNodes cfg ++
          loopTrace cfg theLayerIds cfg.transformer_depth 0 3 1 ++ suffixNodes cfg,
        nextLayer := 7, nextNode := tiedId cfg + 7, finalized := [5] } := by
  rw [graphOf, model_graph_eq]

/-- Closed form of the model component. -/
theorem modelOf_eq (cfg : Cfg) :
    modelOf cfg =
      { inputs := [0], outputs := [tiedId cfg + 1],
        addedLosses := if cfg.penalize_confidence then [tiedId cfg + 6] else [] } := by
  rw [modelOf, model_graph_eq]

/-- The node ids of the whole graph are `0, 1, ..., tiedId + 6`: every
node id is distinct. -/
theorem graphOf_keys (cfg : Cfg) :
    (graphOf cfg).nodes.map Prod.fst = List.range (tiedId cfg + 7) := by
  rw [graphOf_eq]
  simp only [List.map_append]
  rw [loopTrace_keys]
  have hp : (prefixNodes cfg).map Prod.fst = List.range' 0 3 := by
    simp [prefixNodes, List.range'_succ]
  have hs : (suffixNodes cfg).map Prod.fst = List.range' (3 + cfg.transformer_depth * stepK cfg) 7 := by
    simp [suffixNodes, tiedId, List.range'_succ]
  have h2 := List.range'_append 3 (cfg.transformer_depth * stepK cfg) 7 1
  simp only [one_mul] at h2
  have h1 := List.range'_append 0 3 (7 + cfg.transformer_depth * stepK cfg) 1
  simp only [one_mul, Nat.zero_add] at h1
  rw [hp, hs, List.append_assoc, h2, h1, List.range_eq_range']
  congr 1
  simp [tiedId]
  omega

/-- Every node of loop iteration `i` (for `i < transformer_depth`) is a
node of the final graph. -/
theorem graph_iter_mem (cfg : Cfg) (i : Nat) (hi : i < cfg.transformer_depth)
    (x : Nat × NodeOp)
    (hx : x ∈ iterNodes cfg theLayerIds (3 + i * stepK cfg) i (repIn cfg i)) :
    x ∈ (graphOf cfg).nodes := by
  rw [graphOf_eq]
  refine List.mem_append.mpr (Or.inl (List.mem_append.mpr (Or.inr ?_)))
  refine loopTrace_iter_sub cfg theLayerIds cfg.transformer_depth i 0 3 1 hi x ?_
  rw [relRep_base]
  simpa using hx

/-- C1: for every configuration, the graph contains exactly one
embedding-matrix tensor — node 2, the second output of the shared
embedding layer (layer 0) applied to `word_ids` (node 0) — and exactly
one tied output-projection application, whose matrix argument is that
identical node 2 (weight tying). -/
theorem claim1_weight_tying (cfg : Cfg) :
    (graphOf cfg).nodes.countP isEmbedMatrixApp = 1 ∧
    (2, NodeOp.embedMatrix 0 0) ∈ (graphOf cfg).nodes ∧
    (graphOf cfg).nodes.countP isTiedOutApp = 1 ∧
    (tiedId cfg, NodeOp.tiedOut 1 (accIdOf cfg) 2) ∈ (graphOf cfg).nodes := by
  rw [graphOf_eq]
  refine ⟨?_, ?_, ?_, ?_⟩
  · simp [prefixNodes, suffixNodes, List.countP_append,
      loopTrace_embedMatrix_count, isEmbedMatrixApp]
  · simp [prefixNodes]
  · simp [prefixNodes, suffixNodes, List.countP_append,
      loopTrace_tiedOut_count, isTiedOutApp]
  · simp [suffixNodes]

/-- C2: for every configuration, exactly one transformer-block layer
object is constructed (so the block weights do not grow with depth),
every block application in the graph references that one instance
(layer 4), and the block is applied exactly `transformer_depth` times. -/
theorem claim2_shared_block (cfg : Cfg) :
    (graphOf cfg).layers.countP isBlockLayer = 1 ∧
    (⟨4, "transformer",
       LayerKind.transformerBlock cfg.num_heads cfg.transformer_dropout
         cfg.transformer_dropout true false cfg.agglomerative_attention⟩ : Layer) ∈
      (graphOf cfg).layers ∧
    blockApps (graphOf cfg) = cfg.transformer_depth ∧
    (graphOf cfg).nodes.all (blockUsesLayer 4) = true := by
  rw [graphOf_eq]
  refine ⟨?_, ?_, ?_, ?_⟩
  · simp [layersOf, isBlockLayer]
  · simp [layersOf]
  · simp [blockApps, prefixNodes, suffixNodes, List.countP_append,
      loopTrace_block_count, isBlockApp]
  · have h := loopTrace_block_layer cfg theLayerIds cfg.transformer_depth 0 3 1
    rw [List.all_eq_true] at h
    rw [List.all_eq_true]
    intro x hx
    rcases List.mem_append.mp hx with h12 | h3
    · rcases List.mem_append.mp h12 with h1 | h2
      · simp only [prefixNodes, List.mem_cons, List.not_mem_nil, or_false] at h1
        rcases h1 with rfl | rfl | rfl <;> rfl
      · exact h x h2
    · simp only [suffixNodes, List.mem_cons, List.not_mem_nil, or_false] at h3
      rcases h3 with rfl | rfl | rfl | rfl | rfl | rfl | rfl <;> rfl

/-- C5: for every configuration, the confidence-penalty expression
`mean(confidence_penalty_weight * sum(p * log p))` over the output
distribution (node `tiedId + 1`) is built unconditionally — its five
backend nodes are always in the graph — and it is attached as an extra
loss exactly when `penalize_confidence` is true. -/
theorem claim5_confidence_penalty (cfg : Cfg) :
    (tiedId cfg + 2, NodeOp.kLog (tiedId cfg + 1)) ∈ (graphOf cfg).nodes ∧
    (tiedId cfg + 3, NodeOp.kMul (tiedId cfg + 1) (tiedId cfg + 2)) ∈ (graphOf cfg).nodes ∧
    (tiedId cfg + 4, NodeOp.kSumLast (tiedId cfg + 3)) ∈ (graphOf cfg).nodes ∧
    (tiedId cfg + 5, NodeOp.kScaleMul cfg.confidence_penalty_weight (tiedId cfg + 4)) ∈
      (graphOf cfg).nodes ∧
    (tiedId cfg + 6, NodeOp.kMean (tiedId cfg + 5)) ∈ (graphOf cfg).nodes ∧
    (modelOf cfg).outputs = [tiedId cfg + 1] ∧
    (modelOf cfg).addedLosses =
      (if cfg.penalize_confidence then [tiedId cfg + 6] else []) := by
  rw [graphOf_eq, modelOf_eq]
  refine ⟨?_, ?_, ?_, ?_, ?_, rfl, rfl⟩ <;> simp [suffixNodes]

/-- C3: for each `i < transformer_depth`, iteration `i` applies, in this
order to the incoming representation `repIn cfg i`: the convolution
(layer 2) only when `use_convolutions`, then the coordinate embedding
(layer 3) with step index `i` only when `use_coordinate_embeddings`,
then the transformer block (layer 4), then the ACT layer (layer 5),
whose call yields the next-step representation (`actNext`, which is
exactly `repIn cfg (i+1)`) and the updated accumulated pondered output
(`actAccum`). -/
theorem claim3_iteration_order (cfg : Cfg) (i : Nat)
    (hi : i < cfg.transformer_depth) :
    (cfg.use_convolutions = true →
      (3 + i * stepK cfg, NodeOp.conv 2 (repIn cfg i)) ∈ (graphOf cfg).nodes) ∧
    (cfg.use_coordinate_embeddings = true →
      (3 + i * stepK cfg + cNum cfg,
       NodeOp.coord 3 i (convOutId cfg (3 + i * stepK cfg) (repIn cfg i))) ∈
        (graphOf cfg).nodes) ∧
    (3 + i * stepK cfg + cNum cfg + dNum cfg,
      NodeOp.block 4 (coordOutId cfg (3 + i * stepK cfg) (repIn cfg i))) ∈
        (graphOf cfg).nodes ∧
    (3 + i * stepK cfg + cNum cfg + dNum cfg + 1,
      NodeOp.actNext 5 (3 + i * stepK cfg + cNum cfg + dNum cfg)) ∈
        (graphOf cfg).nodes ∧
    (3 + i * stepK cfg + cNum cfg + dNum cfg + 2,
      NodeOp.actAccum 5 (3 + i * stepK cfg + cNum cfg + dNum cfg)) ∈
        (graphOf cfg).nodes ∧
    repIn cfg (i + 1) = 3 + i * stepK cfg + cNum cfg + dNum cfg + 1 := by
  refine ⟨?_, ?_, ?_, ?_, ?_, rfl⟩
  · intro hc
    apply graph_iter_mem cfg i hi
    simp [iterNodes, theLayerIds, hc]
  · intro hd
    apply graph_iter_mem cfg i hi
    simp [iterNodes, theLayerIds, hd]
  · apply graph_iter_mem cfg i hi
    simp [iterNodes, theLayerIds]
  · apply graph_iter_mem cfg i hi
    simp [iterNodes, theLayerIds]
  · apply graph_iter_mem cfg i hi
    simp [iterNodes, theLayerIds]

/-- The last iteration's `actAccum` node is `accIdOf` and consumes the
last block node, whenever the loop runs at least once. -/
theorem actAccum_last_mem (cfg : Cfg) (m : Nat)
    (he : cfg.transformer_depth = m + 1) :
    (accIdOf cfg, NodeOp.actAccum 5 (lastBlockId cfg)) ∈ (graphOf cfg).nodes := by
  have hm : m < cfg.transformer_depth := by omega
  have e1 : accIdOf cfg = 3 + m * stepK cfg + cNum cfg + dNum cfg + 2 := by
    simp [accIdOf, loopAcc, he]
  have e2 : lastBlockId cfg = 3 + m * stepK cfg + cNum cfg + dNum cfg := by
    simp [lastBlockId, lastIterBase, he]
  rw [e1, e2]
  apply graph_iter_mem cfg m hm
  simp [iterNodes, theLayerIds]

/-- C4: for every configuration, `finalize` is recorded exactly once (on
the ACT layer, id 5), the unique tied output projection consumes the
`act_output` value `accIdOf cfg`, all node ids are distinct, and when the
loop ran at least once that value is the last iteration's `actAccum`
node — the accumulated pondered output — not the last iteration's
transformer-block node `lastBlockId cfg`. -/
theorem claim4_pondered_output (cfg : Cfg) :
    (graphOf cfg).finalized = [5] ∧
    (graphOf cfg).nodes.countP isTiedOutApp = 1 ∧
    (tiedId cfg, NodeOp.tiedOut 1 (accIdOf cfg) 2) ∈ (graphOf cfg).nodes ∧
    ((graphOf cfg).nodes.map Prod.fst).Nodup ∧
    (cfg.transformer_depth ≠ 0 →
      (accIdOf cfg, NodeOp.actAccum 5 (lastBlockId cfg)) ∈ (graphOf cfg).nodes ∧
      accIdOf cfg = lastBlockId cfg + 2) := by
  refine ⟨?_, ?_, ?_, ?_, ?_⟩
  · rw [graphOf_eq]
  · rw [graphOf_eq]
    simp [prefixNodes, suffixNodes, List.countP_append,
      loopTrace_tiedOut_count, isTiedOutApp]
  · rw [graphOf_eq]
    simp [suffixNodes]
  · rw [graphOf_keys]
    exact List.nodup_range _
  · intro hd
    rcases he : cfg.transformer_depth with _ | m
    · exact absurd he hd
    · exact ⟨actAccum_last_mem cfg m he,
        by simp [accIdOf, loopAcc, lastBlockId, lastIterBase, he]⟩

/-- A graph contains no coordinate-embedding application when the
coordinate-embedding toggle is off. -/
theorem coordApps_of_not_coord (cfg : Cfg)
    (h : cfg.use_coordinate_embeddings = false) :
    coordApps (graphOf cfg) = 0 := by
  rw [coordApps, graphOf_eq]
  simp [prefixNodes, suffixNodes, List.countP_append, loopTrace_coord_count,
    isCoordApp, dNum, h]

/-- C6: running the stage with `use_convolutions = True` passes
`use_coordinate_embeddings` as its negation (false), so the assembled
model's graph contains no coordinate-embedding application at any depth
iteration; the stage writes that model under the key `model` and leaves
the rest of the scope unchanged. -/
theorem claim6_conv_omits_coord (args : Arguments) (scope : Scope) (v s : Nat)
    (hv : scope "vocabulary_size" = some (ScopeVal.nat v))
    (hs : scope "sequence_length" = some (ScopeVal.nat s))
    (hc : args.use_convolutions = true) :
    (cfgFromArgs args v s).use_coordinate_embeddings = false ∧
    coordApps (graphOf (cfgFromArgs args v s)) = 0 ∧
    GPTModel_run args scope =
      some (fun k => if k = "model"
        then some (ScopeVal.modelVal (modelOf (cfgFromArgs args v s))
          (graphOf (cfgFromArgs args v s)))
        else scope k) := by
  have hcoord : (cfgFromArgs args v s).use_coordinate_embeddings = false := by
    simp [cfgFromArgs, hc]
  refine ⟨hcoord, coordApps_of_not_coord _ hcoord, ?_⟩
  rw [GPTModel_run, hv, hs]
  rw [modelOf, graphOf]

/-- C7 as stated is false: the convolution layer and the
coordinate-embedding layer are constructed even when both toggles are
off.  Concretely, `cfgC7` has both toggles false yet both layer objects
are in the constructed graph. -/
theorem claim7_counterexample :
    cfgC7.use_convolutions = false ∧
    cfgC7.use_coordinate_embeddings = false ∧
    (⟨2, "convolution", LayerKind.conv1D 8 4⟩ : Layer) ∈ (graphOf cfgC7).layers ∧
    (⟨3, "coordinate_embedding", LayerKind.coordinateEmbedding 1⟩ : Layer) ∈
      (graphOf cfgC7).layers := by
  refine ⟨rfl, rfl, ?_, ?_⟩ <;>
    simp [graphOf_eq, layersOf, cfgC7, sampleCfg]

/-- C7 amended: both layers are constructed unconditionally — the
convolution layer with the configured width, and the coordinate-embedding
layer knowing the total `transformer_depth` up front — and the toggles
control only whether each layer is applied in the loop: the convolution
is applied `transformer_depth` times when `use_convolutions` and never
otherwise, and likewise for the coordinate embedding. -/
theorem claim7_amended (cfg : Cfg) :
    (⟨2, "convolution",
       LayerKind.conv1D cfg.word_embedding_size cfg.convolution_width⟩ : Layer) ∈
      (graphOf cfg).layers ∧
    (⟨3, "coordinate_embedding",
       LayerKind.coordinateEmbedding cfg.transformer_depth⟩ : Layer) ∈
      (graphOf cfg).layers ∧
    (graphOf cfg).layers.countP isConvLayer = 1 ∧
    (graphOf cfg).layers.countP isCoordLayer = 1 ∧
    convApps (graphOf cfg) =
      (if cfg.use_convolutions then cfg.transformer_depth else 0) ∧
    coordApps (graphOf cfg) =
      (if cfg.use_coordinate_embeddings then cfg.transformer_depth else 0) := by
  refine ⟨?_, ?_, ?_, ?_, ?_, ?_⟩
  · simp [graphOf_eq, layersOf]
  · simp [graphOf_eq, layersOf]
  · simp [graphOf_eq, layersOf, isConvLayer]
  · simp [graphOf_eq, layersOf, isCoordLayer]
  · rw [convApps, graphOf_eq]
    simp [prefixNodes, suffixNodes, List.countP_append, loopTrace_conv_count,
      isConvApp, cNum]
  · rw [coordApps, graphOf_eq]
    simp [prefixNodes, suffixNodes, List.countP_append, loopTrace_coord_count,
      isCoordApp, dNum]

/-- C8: the L2 regularizer value is attached to exactly two places — the
embedding layer and the tied output projection, with one and the same
value `l2_of l2_reg_penalty` — and that value is `none` (no regularizer
object at all) precisely when `l2_reg_penalty` is `None` or `0`;
otherwise it is the regularizer with the given strength. -/
theorem claim8_l2_regularization (cfg : Cfg) :
    regSlotsOf (graphOf cfg) =
      [l2_of cfg.l2_reg_penalty, l2_of cfg.l2_reg_penalty] ∧
    (l2_of cfg.l2_reg_penalty = none ↔
      (cfg.l2_reg_penalty = none ∨ cfg.l2_reg_penalty = some 0)) ∧
    (l2_of cfg.l2_reg_penalty ≠ none →
      l2_of cfg.l2_reg_penalty = cfg.l2_reg_penalty) := by
  refine ⟨?_, ?_, ?_⟩
  · rw [graphOf_eq]
    simp [regSlotsOf, layersOf, regSlotOf]
  · rcases hp : cfg.l2_reg_penalty with _ | q
    · simp [l2_of, pyTruthy]
    · rcases hq : decide (q = 0) with _ | _
      · simp at hq
        simp [l2_of, pyTruthy, hq]
      · simp at hq
        simp [l2_of, pyTruthy, hq]
  · intro hne
    rcases hp : cfg.l2_reg_penalty with _ | q
    · simp [l2_of, pyTruthy, hp] at hne
    · by_cases hq : q = 0
      · simp [l2_of, pyTruthy, hp, hq] at hne
      · simp [l2_of, pyTruthy, hp, hq]

/-- C9: the stage's run reads exactly `vocabulary_size` and
`sequence_length` — the written model is a function of the arguments and
those two values alone — and its only change to the scope is writing the
model under the key `model`; any other key keeps its previous value. -/
theorem claim9_scope_frame (args : Arguments) (scope : Scope) (v s : Nat)
    (hv : scope "vocabulary_size" = some (ScopeVal.nat v))
    (hs : scope "sequence_length" = some (ScopeVal.nat s)) :
    GPTModel_run args scope =
      some (fun k => if k = "model"
        then some (ScopeVal.modelVal (modelOf (cfgFromArgs args v s))
          (graphOf (cfgFromArgs args v s)))
        else scope k) := by
  rw [GPTModel_run, hv, hs]
  rw [modelOf, graphOf]

/-- C10: with `transformer_depth = 0` the assembly still yields a model:
the loop never applies the convolution, coordinate embedding, block, or
ACT layer; `finalize` is still called once; and the output is the softmax
(node 4) of the tied projection (node 3) applied directly to the raw
embedded input sequence (node 1) and the embedding matrix (node 2). -/
theorem claim10_depth_zero (cfg : Cfg) (h : cfg.transformer_depth = 0) :
    blockApps (graphOf cfg) = 0 ∧
    actApps (graphOf cfg) = 0 ∧
    convApps (graphOf cfg) = 0 ∧
    coordApps (graphOf cfg) = 0 ∧
    (graphOf cfg).finalized = [5] ∧
    (modelOf cfg).outputs = [4] ∧
    (4, NodeOp.softmax 6 3) ∈ (graphOf cfg).nodes ∧
    (3, NodeOp.tiedOut 1 1 2) ∈ (graphOf cfg).nodes ∧
    (1, NodeOp.embedSeq 0 0) ∈ (graphOf cfg).nodes ∧
    (2, NodeOp.embedMatrix 0 0) ∈ (graphOf cfg).nodes := by
  have ht : tiedId cfg = 3 := by simp [tiedId, h]
  have ha : accIdOf cfg = 1 := by simp [accIdOf, h, loopAcc]
  rw [graphOf_eq, modelOf_eq]
  refine ⟨?_, ?_, ?_, ?_, rfl, ?_, ?_, ?_, ?_, ?_⟩ <;>
    simp [blockApps, actApps, convApps, coordApps, prefixNodes, suffixNodes,
      List.countP_append, h, loopTrace, isBlockApp, isActApp, isConvApp,
      isCoordApp, ht, ha]

/-- Witness for C3 at `cfgC3` (both toggles on, depth 2), iteration 1:
`stepK = 5`, the iteration's nodes are 8..12 and chain conv → coord
(step 1) → block → ACT, with the next iteration's input being node 11. -/
theorem claim3_witness :
    (8, NodeOp.conv 2 6) ∈ (graphOf cfgC3).nodes ∧
    (9, NodeOp.coord 3 1 8) ∈ (graphOf cfgC3).nodes ∧
    (10, NodeOp.block 4 9) ∈ (graphOf cfgC3).nodes ∧
    (11, NodeOp.actNext 5 10) ∈ (graphOf cfgC3).nodes ∧
    (12, NodeOp.actAccum 5 10) ∈ (graphOf cfgC3).nodes ∧
    repIn cfgC3 2 = 11 :=
  have h := claim3_iteration_order cfgC3 1 (by decide)
  ⟨h.1 rfl, h.2.1 rfl, h.2.2.1, h.2.2.2.1, h.2.2.2.2.1, h.2.2.2.2.2⟩

/-- Witness for C4 at `cfgC3`: finalize once, the tied projection (node
13) consumes the last `actAccum` node 12, not the last block node 10. -/
theorem claim4_witness :
    (graphOf cfgC3).finalized = [5] ∧
    (13, NodeOp.tiedOut 1 12 2) ∈ (graphOf cfgC3).nodes ∧
    (12, NodeOp.actAccum 5 10) ∈ (graphOf cfgC3).nodes ∧
    accIdOf cfgC3 = lastBlockId cfgC3 + 2 :=
  have h := claim4_pondered_output cfgC3
  ⟨h.1, h.2.2.1, (h.2.2.2.2 (by decide)).1, (h.2.2.2.2 (by decide)).2⟩

/-- Witness for C6 at concrete arguments with convolutions enabled. -/
theorem claim6_witness :
    (cfgFromArgs argsConv 10 8).use_coordinate_embeddings = false ∧
    coordApps (graphOf (cfgFromArgs argsConv 10 8)) = 0 ∧
    GPTModel_run argsConv testScope =
      some (fun k => if k = "model"
        then some (ScopeVal.modelVal (modelOf (cfgFromArgs argsConv 10 8))
          (graphOf (cfgFromArgs argsConv 10 8)))
        else testScope k) :=
  claim6_conv_omits_coord argsConv testScope 10 8 rfl rfl rfl

/-- Witness for C8 at `cfgC8` (`l2_reg_penalty = 5`): both regularizer
slots carry strength 5. -/
theorem claim8_witness :
    regSlotsOf (graphOf cfgC8) = [some 5, some 5] ∧
    l2_of cfgC8.l2_reg_penalty = some 5 :=
  have h := claim8_l2_regularization cfgC8
  ⟨h.1, h.2.2 (by decide)⟩

/-- Witness for C9 at concrete arguments and scope. -/
theorem claim9_witness :
    GPTModel_run argsPlain testScope =
      some (fun k => if k = "model"
        then some (ScopeVal.modelVal (modelOf (cfgFromArgs argsPlain 10 8))
          (graphOf (cfgFromArgs argsPlain 10 8)))
        else testScope k) :=
  claim9_scope_frame argsPlain testScope 10 8 rfl rfl

/-- Witness for C10 at `cfgC10` (depth 0). -/
theorem claim10_witness :
    blockApps (graphOf cfgC10) = 0 ∧
    actApps (graphOf cfgC10) = 0 ∧
    convApps (graphOf cfgC10) = 0 ∧
    coordApps (graphOf cfgC10) = 0 ∧
    (graphOf cfgC10).finalized = [5] ∧
    (modelOf cfgC10).outputs = [4] ∧
    (4, NodeOp.softmax 6 3) ∈ (graphOf cfgC10).nodes ∧
    (3, NodeOp.tiedOut 1 1 2) ∈ (graphOf cfgC10).nodes ∧
    (1, NodeOp.embedSeq 0 0) ∈ (graphOf cfgC10).nodes ∧
    (2, NodeOp.embedMatrix 0 0) ∈ (graphOf cfgC10).nodes :=
  claim10_depth_zero cfgC10 rfl

end GPTSpec
